import Mathlib

/-!
Shallow embedding of the OpenPLC OPC UA bridge
(`webserver/core/opcua.cpp`) and proofs about the claims of its
specification.

Machine integers are modelled as `Nat`/`Int`; stored scalar contents are
modelled as bit patterns (`Nat`), since the bridge only copies values
between typed cells and never computes with them.  Locking and calls into
the open62541 stack are modelled as explicit event traces.
-/

namespace OpcuaBridge

/-- The open62541 scalar data types the bridge dispatches on
(`UA_TYPES[UA_TYPES_BOOLEAN]` … `UA_TYPES[UA_TYPES_DOUBLE]`), plus
`otherType` standing for any `UA_TYPES` entry outside the eleven the
bridge supports (such pointers fall through every branch of the source's
if-chains). -/
inductive UAType
  | boolean
  | byte
  | sbyte
  | int16
  | int32
  | int64
  | uint16
  | uint32
  | uint64
  | float32
  | float64
  | otherType
  deriving DecidableEq, Repr

/-- Status codes returned by the bridge's handlers.  `undefined` models the
C undefined behaviour of dereferencing a null pointer (the data-source
write handler dereferences `binding->variablePtr` without a null check). -/
inductive UAStatus
  | good
  | badTypeMismatch
  | badInternalError
  | badNodeIdExists
  | otherFailure
  | undefined
  deriving DecidableEq, Repr

/-- Identity of one process-image cell, keyed the way the resolver indexes
the `ladder.h` pointer tables (`bool_input[i][b]`, `int_memory[i]`, …). -/
inductive SlotId
  | boolIn (i b : Int)
  | boolOut (i b : Int)
  | byteIn (i : Int)
  | byteOut (i : Int)
  | intIn (i : Int)
  | intOut (i : Int)
  | intMem (i : Int)
  | dintIn (i : Int)
  | dintOut (i : Int)
  | dintMem (i : Int)
  | lintIn (i : Int)
  | lintOut (i : Int)
  | lintMem (i : Int)
  | realIn (i : Int)
  | realOut (i : Int)
  | realMem (i : Int)
  | lrealIn (i : Int)
  | lrealOut (i : Int)
  | lrealMem (i : Int)
  deriving DecidableEq, Repr

/-- A pointer is either a borrowed address of a process-image slot or a
heap cell (the shadow cells are heap allocations owned by the bridge). -/
inductive Ptr
  | slot (s : SlotId)
  | heap (n : Nat)
  deriving DecidableEq, Repr

/-- Memory: contents (bit pattern) of every cell. -/
def Mem : Type := Ptr → Nat

/-- Pointwise store, `*p = v`. -/
def updateMem (mem : Mem) (p : Ptr) (v : Nat) : Mem :=
  fun x => if x = p then v else mem x

/-- A `UA_Variant` as the handlers inspect it: scalar flag, data pointer
presence, type pointer (none = `NULL`), and the pointed-to bit pattern. -/
structure UAVariant where
  isScalar : Bool
  dataPresent : Bool
  ty : Option UAType
  bits : Nat
  deriving DecidableEq, Repr

/-- A `UA_DataValue` as passed to the write handlers. -/
structure UADataValue where
  hasValue : Bool
  value : UAVariant
  deriving DecidableEq, Repr

/-- `OpcVarBinding`: node context used by the data-source style handlers
(`readVariableValue` / `writeVariableValue`). -/
structure OpcVarBinding where
  variablePtr : Option Ptr
  dataType : Option UAType
  shadowPtr : Option Ptr
  deriving DecidableEq, Repr

/-- `OpcNodeInfo`: the record `addVariableNode` mallocs, links into
`g_node_list` and installs as the node context of the value callback.
`nodeId` is the pair (namespace index, numeric id). -/
structure OpcNodeInfo where
  nodeId : Nat × Nat
  variablePtr : Option Ptr
  dataType : Option UAType
  deriving DecidableEq, Repr

/-- Observable events of a handler run: lock operations on the scan lock
(`bufferLock`) and the bridge lock (`opcua_mutex`), typed stores and loads
on image and shadow cells, and calls into the open62541 stack. -/
inductive Ev
  | scanLockAcquire
  | scanLockRelease
  | bridgeLockAcquire
  | bridgeLockRelease
  | imageStore (p : Ptr) (v : Nat)
  | shadowStore (p : Ptr) (v : Nat)
  | imageRead (p : Ptr)
  | shadowRead (p : Ptr)
  | stackCall
  | nullDeref
  deriving DecidableEq, Repr

/-- `onVariableValueWrite` (opcua.cpp:98-141): the write half of the
`UA_ValueCallback` installed by `addVariableNode`.  It is `void`; on any
precondition failure it simply returns.  On a matching scalar it locks
`bufferLock`, copies the client scalar into the PLC cell through the
eleven-way type chain, and unlocks.  (The `snprintf`/`openplc_log` lines
are pure logging and are not modelled.) -/
def onVariableValueWrite (nodeContext : Option OpcNodeInfo) (data : Option UADataValue)
    (mem : Mem) : Mem × List Ev :=
  match nodeContext, data with
  | none, _ => (mem, [])
  | some _, none => (mem, [])
  | some info, some dv =>
    if dv.hasValue = false then (mem, [])
    else if info.variablePtr = none ∨ info.dataType = none then (mem, [])
    else if ¬ (dv.value.isScalar = true ∧ dv.value.dataPresent = true ∧ dv.value.ty ≠ none) then
      (mem, [])
    else if dv.value.ty ≠ info.dataType then (mem, [])
    else
      match info.dataType, info.variablePtr with
      | some t, some p =>
        if t = UAType.otherType then
          -- none of the eleven branches fires; the lock is still taken and released
          (mem, [Ev.scanLockAcquire, Ev.scanLockRelease])
        else
          (updateMem mem p dv.value.bits,
            [Ev.scanLockAcquire, Ev.imageStore p dv.value.bits, Ev.scanLockRelease])
      | _, _ => (mem, [])

/-- The `UA_DataValue` fields `readVariableValue` writes through its out
parameter, together with the variant contents it copies in (if any). -/
structure ReadOut where
  hasValue : Bool
  hasStatus : Bool
  status : UAStatus
  hasSourceTimestamp : Bool
  populated : Option (UAType × Nat)
  deriving DecidableEq, Repr

/-- `readVariableValue` (opcua.cpp:206-278): the data-source style read
handler.  Returns the status code, the fields written into the out
`UA_DataValue` (none when it early-returns without touching it), and the
event trace.  The handler copies the shadow cell into the variant through
the eleven-way chain, yet unconditionally sets `hasValue = false` and
`status = GOOD` at the end. -/
def readVariableValue (nodeContext : Option OpcVarBinding) (dataValuePresent : Bool)
    (mem : Mem) : UAStatus × Option ReadOut × List Ev :=
  match nodeContext with
  | none => (UAStatus.badInternalError, none, [])
  | some b =>
    if dataValuePresent = false then (UAStatus.badInternalError, none, [])
    else if b.dataType = none ∨ b.shadowPtr = none then
      (UAStatus.good, some ⟨false, true, UAStatus.good, false, none⟩, [])
    else
      match b.dataType, b.shadowPtr with
      | some t, some q =>
        if t = UAType.otherType then
          -- sc stays BADTYPEMISMATCH and the variant is never populated,
          -- but the function still reports hasValue=false / GOOD
          (UAStatus.good, some ⟨false, true, UAStatus.good, false, none⟩, [])
        else
          (UAStatus.good,
            some ⟨false, true, UAStatus.good, false, some (t, mem q)⟩,
            [Ev.shadowRead q])
      | _, _ => (UAStatus.good, some ⟨false, true, UAStatus.good, false, none⟩, [])

/-- `writeVariableValue` (opcua.cpp:283-371): the data-source style write
handler.  Checks context and value, locks `bufferLock`, validates the
variant, on a type match copies the scalar into `*binding->variablePtr`
and (when present) into `*binding->shadowPtr`, and unlocks; on any variant
or type failure it unlocks and returns `BADTYPEMISMATCH` without storing.
The image pointer is dereferenced without a null check (`undefined`). -/
def writeVariableValue (nodeContext : Option OpcVarBinding) (dataValue : Option UADataValue)
    (mem : Mem) : UAStatus × Mem × List Ev :=
  match nodeContext, dataValue with
  | none, _ => (UAStatus.badInternalError, mem, [])
  | some _, none => (UAStatus.badInternalError, mem, [])
  | some b, some dv =>
    if dv.hasValue = false then (UAStatus.badInternalError, mem, [])
    else if ¬ (dv.value.isScalar = true ∧ dv.value.dataPresent = true ∧ dv.value.ty ≠ none) then
      (UAStatus.badTypeMismatch, mem, [Ev.scanLockAcquire, Ev.scanLockRelease])
    else if dv.value.ty ≠ b.dataType then
      (UAStatus.badTypeMismatch, mem, [Ev.scanLockAcquire, Ev.scanLockRelease])
    else
      match b.dataType with
      | none => (UAStatus.badTypeMismatch, mem, [Ev.scanLockAcquire, Ev.scanLockRelease])
      | some t =>
        if t = UAType.otherType then
          -- the final else of the eleven-way chain
          (UAStatus.badTypeMismatch, mem, [Ev.scanLockAcquire, Ev.scanLockRelease])
        else
          match b.variablePtr with
          | none => (UAStatus.undefined, mem, [Ev.scanLockAcquire, Ev.nullDeref])
          | some p =>
            let v := dv.value.bits
            let mem1 := updateMem mem p v
            match b.shadowPtr with
            | none =>
              (UAStatus.good, mem1,
                [Ev.scanLockAcquire, Ev.imageStore p v, Ev.scanLockRelease])
            | some q =>
              (UAStatus.good, updateMem mem1 q v,
                [Ev.scanLockAcquire, Ev.imageStore p v, Ev.shadowStore q v,
                  Ev.scanLockRelease])

/-- One iteration of the update loop of `opcuaUpdateNodeValues`
(opcua.cpp:509-562): when the node info has a pointer and a type, the
current PLC value is read from the image, packed into a variant through
the eleven-way chain (an unsupported type leaves the variant empty), and
`UA_Server_writeValue` is called on the node.  Only the events matter
here. -/
def updateNodeEvents (info : OpcNodeInfo) : List Ev :=
  match info.variablePtr, info.dataType with
  | some p, some t =>
    (if t = UAType.otherType then [] else [Ev.imageRead p]) ++ [Ev.stackCall]
  | _, _ => []

/-- `opcuaUpdateNodeValues` (opcua.cpp:481-564): the scan-tick publisher.
Returns immediately when the server is absent or not running; otherwise
it locks `opcua_mutex`, walks `g_node_list` writing each current image
value into its protocol node, and unlocks. -/
def opcuaUpdateNodeValues (serverPresent running : Bool) (nodes : List OpcNodeInfo) :
    List Ev :=
  if serverPresent = false ∨ running = false then []
  else
    Ev.bridgeLockAcquire :: (nodes.map updateNodeEvents).flatten ++ [Ev.bridgeLockRelease]

/-- Modelled from the spec: `BUFFER_SIZE` is declared in `ladder.h`, which
is not part of the sources; the spec only states that index bounds are
`[0, BUFFER_SIZE)`.  The value is irrelevant to every claim (all concrete
indices used are far below it); 1024 is the customary OpenPLC size. -/
def BUFFER_SIZE : Int := 1024

/-- The NUL terminator of a C string. -/
def nulChar : Char := Char.ofNat 0

/-- Read of a C string at an index: past the final character the NUL
terminator is read. -/
def cstrGet (s : List Char) (i : Nat) : Char :=
  s.getD i nulChar

/-- The whitespace class of C `isspace`, as skipped by `atoi`. -/
def isSpaceChar (c : Char) : Bool :=
  c = ' ' ∨ c = '\t' ∨ c = '\n' ∨ c = Char.ofNat 11 ∨ c = Char.ofNat 12 ∨ c = '\r'

/-- Decimal digit test. -/
def isDigitChar (c : Char) : Bool :=
  '0' ≤ c ∧ c ≤ '9'

/-- Accumulate the leading run of decimal digits. -/
def atoiDigits : List Char → Int → Int
  | [], acc => acc
  | c :: cs, acc =>
    if isDigitChar c then atoiDigits cs (acc * 10 + ((c.toNat : Int) - ('0'.toNat : Int)))
    else acc

/-- C `atoi`: skip whitespace, optional sign, leading digits; 0 when no
digits follow. -/
def atoiModel (s : List Char) : Int :=
  match s.dropWhile isSpaceChar with
  | '-' :: rest => - atoiDigits rest 0
  | '+' :: rest => atoiDigits rest 0
  | s1 => atoiDigits s1 0

/-- C `strchr(s, c) + 1`: the suffix just after the first occurrence of
`c`, or none when `c` does not occur. -/
def strchrSuffix (c : Char) : List Char → Option (List Char)
  | [] => none
  | x :: xs => if x = c then some xs else strchrSuffix c xs

/-- The process image as the resolver sees it: which cells the compiler
allocated (pointer table entry non-null). -/
structure ProcessImage where
  present : SlotId → Bool

/-- The `switch (area)` body of `resolvePointerFromLocation`
(opcua.cpp:749-891): per area and width glyph, check the index bounds and
the pointer table, and return the borrowed pointer with the OPC UA scalar
type fixed by the width. -/
def resolveCore (img : ProcessImage) (area typ : Char) (index1 index2 : Int) :
    Option (SlotId × UAType) :=
  if area = 'I' then
    if typ = 'X' then
      if 0 ≤ index1 ∧ index1 < BUFFER_SIZE ∧ img.present (SlotId.boolIn index1 index2) then
        some (SlotId.boolIn index1 index2, UAType.boolean)
      else none
    else if typ = 'B' then
      if 0 ≤ index1 ∧ index1 < BUFFER_SIZE ∧ img.present (SlotId.byteIn index1) then
        some (SlotId.byteIn index1, UAType.byte)
      else none
    else if typ = 'W' then
      if 0 ≤ index1 ∧ index1 < BUFFER_SIZE ∧ img.present (SlotId.intIn index1) then
        some (SlotId.intIn index1, UAType.uint16)
      else none
    else if typ = 'D' then
      if 0 ≤ index1 ∧ index1 < BUFFER_SIZE ∧ img.present (SlotId.dintIn index1) then
        some (SlotId.dintIn index1, UAType.uint32)
      else none
    else if typ = 'L' then
      if 0 ≤ index1 ∧ index1 < BUFFER_SIZE ∧ img.present (SlotId.lintIn index1) then
        some (SlotId.lintIn index1, UAType.uint64)
      else none
    else if typ = 'R' then
      if 0 ≤ index1 ∧ index1 < BUFFER_SIZE ∧ img.present (SlotId.realIn index1) then
        some (SlotId.realIn index1, UAType.float32)
      else none
    else if typ = 'F' then
      if 0 ≤ index1 ∧ index1 < BUFFER_SIZE ∧ img.present (SlotId.lrealIn index1) then
        some (SlotId.lrealIn index1, UAType.float64)
      else none
    else none
  else if area = 'Q' then
    if typ = 'X' then
      if 0 ≤ index1 ∧ index1 < BUFFER_SIZE ∧ img.present (SlotId.boolOut index1 index2) then
        some (SlotId.boolOut index1 index2, UAType.boolean)
      else none
    else if typ = 'B' then
      if 0 ≤ index1 ∧ index1 < BUFFER_SIZE ∧ img.present (SlotId.byteOut index1) then
        some (SlotId.byteOut index1, UAType.byte)
      else none
    else if typ = 'W' then
      if 0 ≤ index1 ∧ index1 < BUFFER_SIZE ∧ img.present (SlotId.intOut index1) then
        some (SlotId.intOut index1, UAType.uint16)
      else none
    else if typ = 'D' then
      if 0 ≤ index1 ∧ index1 < BUFFER_SIZE ∧ img.present (SlotId.dintOut index1) then
        some (SlotId.dintOut index1, UAType.uint32)
      else none
    else if typ = 'L' then
      if 0 ≤ index1 ∧ index1 < BUFFER_SIZE ∧ img.present (SlotId.lintOut index1) then
        some (SlotId.lintOut index1, UAType.uint64)
      else none
    else if typ = 'R' then
      if 0 ≤ index1 ∧ index1 < BUFFER_SIZE ∧ img.present (SlotId.realOut index1) then
        some (SlotId.realOut index1, UAType.float32)
      else none
    else if typ = 'F' then
      if 0 ≤ index1 ∧ index1 < BUFFER_SIZE ∧ img.present (SlotId.lrealOut index1) then
        some (SlotId.lrealOut index1, UAType.float64)
      else none
    else none
  else if area = 'M' then
    -- no 'X' and no 'B' case: those widths fall through to return false
    if typ = 'W' then
      if 0 ≤ index1 ∧ index1 < BUFFER_SIZE ∧ img.present (SlotId.intMem index1) then
        some (SlotId.intMem index1, UAType.uint16)
      else none
    else if typ = 'D' then
      if 0 ≤ index1 ∧ index1 < BUFFER_SIZE ∧ img.present (SlotId.dintMem index1) then
        some (SlotId.dintMem index1, UAType.uint32)
      else none
    else if typ = 'L' then
      if 0 ≤ index1 ∧ index1 < BUFFER_SIZE ∧ img.present (SlotId.lintMem index1) then
        some (SlotId.lintMem index1, UAType.uint64)
      else none
    else if typ = 'R' then
      if 0 ≤ index1 ∧ index1 < BUFFER_SIZE ∧ img.present (SlotId.realMem index1) then
        some (SlotId.realMem index1, UAType.float32)
      else none
    else if typ = 'F' then
      if 0 ≤ index1 ∧ index1 < BUFFER_SIZE ∧ img.present (SlotId.lrealMem index1) then
        some (SlotId.lrealMem index1, UAType.float64)
      else none
    else none
  else none

/-- `resolvePointerFromLocation` (opcua.cpp:724-891): parse an IEC
location token such as `%IX0.0`, `%QW10`, `%MD954` and resolve it to a
typed image pointer.  For width `X` the dot-separated bit index is
mandatory and must lie in `[0, 8)`. -/
def resolvePointerFromLocation (img : ProcessImage) (location : List Char) :
    Option (SlotId × UAType) :=
  if cstrGet location 0 ≠ '%' then none
  else
    let area := cstrGet location 1
    let typ := cstrGet location 2
    let rest := location.drop 3
    if typ = 'X' then
      let index1 := atoiModel rest
      match strchrSuffix '.' rest with
      | none => none
      | some afterDot =>
        let index2 := atoiModel afterDot
        if index2 < 0 ∨ 8 ≤ index2 then none
        else resolveCore img area typ index1 index2
    else
      resolveCore img area typ (atoiModel rest) (-1)

/-- The manifest macro marker searched for by `strstr`. -/
def markerChars : List Char := "__LOCATED_VAR(".data

/-- C `strstr(s, pat) != NULL`: does `pat` occur as a contiguous substring
of `s`? -/
def hasSubstring (pat : List Char) : List Char → Bool
  | [] => pat.isEmpty
  | c :: cs => pat.isPrefixOf (c :: cs) || hasSubstring pat cs

/-- The contents up to (excluding) the LAST `')'` of `t`
(`strrchr(lpar, ')')` followed by `*rpar = '\0'`), or none when `t` has
no `')'`. -/
def uptoLastRpar (t : List Char) : Option (List Char) :=
  match t.reverse.dropWhile (fun c => c ≠ ')') with
  | [] => none
  | _ :: rest => some rest.reverse

/-- The argument text of the macro: everything between the first `'('`
and the last `')'` after it, or none when either is absent. -/
def extractParenArgs (p : List Char) : Option (List Char) :=
  match strchrSuffix '(' p with
  | none => none
  | some afterLpar => uptoLastRpar afterLpar

/-- `strtok_r(args, ",")` capped at 8 tokens: the maximal nonempty runs
between commas, first eight only. -/
def tokenizeCommas (args : List Char) : List (List Char) :=
  ((args.splitOn ',').filter (fun t => ¬ t.isEmpty)).take 8

/-- Leading space/tab trimming as done on the name/area/width tokens
(`while (*tok==' '||*tok=='\t') tok++`). -/
def dropLeadingWs (t : List Char) : List Char :=
  t.dropWhile (fun c => c = ' ' ∨ c = '\t')

/-- First character of a (NUL-terminated) token after leading-blank
trimming, i.e. `tok[0]` of the adjusted pointer. -/
def tokFirstChar (t : List Char) : Char :=
  cstrGet (dropLeadingWs t) 0

/-- The location string composed by `snprintf` before the resolver is
reused: `"%<area>X<idx1>.<idx2>"` for width `X`, else
`"%<area><typ><idx1>"` (`%d` renders an `Int` in decimal with a leading
minus when negative, as `toString` does). -/
def composeLocation (area typ : Char) (idx1 idx2 : Int) : List Char :=
  if typ = 'X' then
    '%' :: area :: 'X' :: ((toString idx1).data ++ '.' :: (toString idx2).data)
  else
    '%' :: area :: typ :: (toString idx1).data

/-- Results of the stack and allocator calls `addVariableNode` makes:
the status of `UA_Server_addVariableNode` for a given numeric node id,
and whether the `OpcNodeInfo` malloc succeeds. -/
structure AddNodeEnv where
  addResult : Nat → UAStatus
  mallocOk : Bool

/-- The bridge's global state: `g_opcua_server` presence,
`g_opcua_running`, `g_namespace_index`, `g_node_list`, `g_node_count`,
and the function-local `static UA_UInt32 nextId` of
`createNodesFromLocatedVariables` (whose lifetime is the whole process).
-/
structure BridgeSt where
  serverPresent : Bool
  running : Bool
  nsIndex : Nat
  nodeList : List OpcNodeInfo
  nodeCount : Nat
  nextId : Nat
  deriving DecidableEq, Repr

/-- State at process start: no server, not running, namespace index 1,
empty node list, `nextId = 4000000`. -/
def initialBridgeSt : BridgeSt :=
  { serverPresent := false
    running := false
    nsIndex := 1
    nodeList := []
    nodeCount := 0
    nextId := 4000000 }

/-- `addVariableNode` (opcua.cpp:376-478): skip null pointers and null
data types outright; otherwise ask the stack to add the node and, on
`GOOD`, malloc an `OpcNodeInfo`, push it onto `g_node_list`, bump
`g_node_count`, and attach the node context and the `onWrite` callback.
`BADNODEIDEXISTS` and any other failure are logged and skipped. -/
def addVariableNode (env : AddNodeEnv) (st : BridgeSt) (nodeIdNum : Nat)
    (variablePtr : Option Ptr) (dataType : Option UAType) : BridgeSt :=
  if variablePtr = none then st
  else if dataType = none then st
  else
    match env.addResult nodeIdNum with
    | UAStatus.good =>
      if env.mallocOk then
        { st with
          nodeList := ⟨(st.nsIndex, nodeIdNum), variablePtr, dataType⟩ :: st.nodeList
          nodeCount := st.nodeCount + 1 }
      else st
    | _ => st

/-- `nextId++` on a `UA_UInt32`: increment modulo 2^32. -/
def nextIdStep (x : Nat) : Nat :=
  (x + 1) % 2 ^ 32

/-- Environment of the node-creation scan: the stack/allocator results
and the process image. -/
structure ScanEnv where
  addEnv : AddNodeEnv
  img : ProcessImage

/-- One line of the manifest loop of `createNodesFromLocatedVariables`
(opcua.cpp:923-969), threading (bridge state, `seen`, `added`): trim
leading blanks, skip lines without the marker, count `seen`, decompose
the parenthesised arguments, tokenize by commas, REQUIRE AT LEAST SIX
tokens (`if (n < 6) continue;`), extract area/width/indices, compose the
location string, resolve it, and on success create the node under a
fresh id and count `added`. -/
def processManifestLine (env : ScanEnv) (acc : BridgeSt × Nat × Nat)
    (line : List Char) : BridgeSt × Nat × Nat :=
  let st := acc.1
  let seen := acc.2.1
  let added := acc.2.2
  let p := line.dropWhile (fun c => c = ' ' ∨ c = '\t' ∨ c = '\r' ∨ c = '\n')
  if ¬ hasSubstring markerChars p then acc
  else
    let seen := seen + 1
    match extractParenArgs p with
    | none => (st, seen, added)
    | some args =>
      let tokens := tokenizeCommas args
      let n := tokens.length
      if n < 6 then (st, seen, added)
      else
        let area := tokFirstChar (tokens.getD 2 [])
        let typ := tokFirstChar (tokens.getD 3 [])
        let idx1 := atoiModel (tokens.getD 4 [])
        let idx2 := if 6 ≤ n then atoiModel (tokens.getD 5 []) else 0
        let location := composeLocation area typ idx1 idx2
        match resolvePointerFromLocation env.img location with
        | none => (st, seen, added)
        | some (slot, uaTy) =>
          let nodeIdNum := st.nextId
          let st1 := { st with nextId := nextIdStep st.nextId }
          let st2 := addVariableNode env.addEnv st1 nodeIdNum
            (some (Ptr.slot slot)) (some uaTy)
          (st2, seen, added + 1)

/-- `createNodesFromLocatedVariables` (opcua.cpp:896-977): when the
manifest file is found, run the line loop; when it is not, log and
create nothing.  Returns the new bridge state with the `seen` and
`added` counters.  (The `ProgramVariables` folder creation and all
logging are stack/IO side effects with no bearing on the claims.) -/
def createNodesFromLocatedVariables (env : ScanEnv)
    (manifest : Option (List (List Char))) (st : BridgeSt) :
    BridgeSt × Nat × Nat :=
  match manifest with
  | none => (st, 0, 0)
  | some lines => lines.foldl (processManifestLine env) (st, 0, 0)

/-- Results of the stack calls `opcuaStartServer` makes, plus the
manifest contents (none = `LOCATED_VARIABLES.h` not found). -/
structure StackEnv where
  newOk : Bool
  configOk : Bool
  setMinimal : UAStatus
  addNamespaceResult : Nat
  startup : UAStatus
  scanEnv : ScanEnv
  manifest : Option (List (List Char))

/-- `opcuaStartServer` (opcua.cpp:1021-1127) up to the point the iterate
loop is entered (or an early return): refuse a double start, delete any
previous instance, reset the running flag and namespace index, create
and configure a fresh server (each failure destroys the instance and
returns), register the namespace (AN INDEX OF 0 IS ONLY LOGGED), build
the nodes from the manifest, set the running flag, and call
`UA_Server_run_startup` (failure destroys the instance and clears the
flag). -/
def opcuaStartServer (env : StackEnv) (st : BridgeSt) : BridgeSt :=
  if st.running then st
  else
    let st := { st with serverPresent := false, running := false, nsIndex := 1 }
    if ¬ env.newOk then st
    else
      let st := { st with serverPresent := true }
      if ¬ env.configOk then { st with serverPresent := false }
      else if env.setMinimal ≠ UAStatus.good then { st with serverPresent := false }
      else
        -- registerNamespace (opcua.cpp:569-581): store the result even
        -- when it is 0; a 0 merely logs a failure message
        let st := { st with nsIndex := env.addNamespaceResult }
        let st := (createNodesFromLocatedVariables env.scanEnv env.manifest st).1
        let st := { st with running := true }
        if env.startup ≠ UAStatus.good then
          { st with serverPresent := false, running := false }
        else st

/-- `stopOpcua` (opcua.cpp:997-1016): when running, clear the flag, wait
briefly, and delete the server instance if it still exists.
`g_node_list`, `g_node_count` and the node-id counter are untouched. -/
def stopOpcua (st : BridgeSt) : BridgeSt :=
  if st.running then
    { st with running := false, serverPresent := false }
  else st

/-! Concrete fixtures used by the theorems below. -/

/-- A process image in which the compiler allocated every cell. -/
def imgAll : ProcessImage := ⟨fun _ => true⟩

/-- Stack/allocator environment in which every call succeeds. -/
def goodAddEnv : AddNodeEnv := ⟨fun _ => UAStatus.good, true⟩

/-- Scan environment: all calls succeed, all cells present. -/
def goodScanEnv : ScanEnv := ⟨goodAddEnv, imgAll⟩

/-- The spec's five-field integer manifest record. -/
def lineFive : List Char := "__LOCATED_VAR(UINT,__IW5,I,W,5)".data

/-- The same record with an explicit sixth field. -/
def lineSix : List Char := "__LOCATED_VAR(UINT,__IW5,I,W,5,0)".data

/-- A manifest record for `%MB0` (area `M`, width `B`: unsupported). -/
def lineMB0 : List Char := "__LOCATED_VAR(BYTE,__MB0,M,B,0,0)".data

/-- A fully successful start environment (namespace index 2, one-line
manifest). -/
def restartStackEnv : StackEnv :=
  ⟨true, true, UAStatus.good, 2, UAStatus.good, goodScanEnv, some [lineSix]⟩

/-- A start environment whose namespace registration returns index 0. -/
def nsZeroStackEnv : StackEnv :=
  ⟨true, true, UAStatus.good, 0, UAStatus.good, goodScanEnv, some [lineSix]⟩

/-- The image cell of `%IW5` (`int_input[5]`). -/
def imagePtrIW5 : Ptr := Ptr.slot (SlotId.intIn 5)

/-- A heap shadow cell. -/
def shadowCell : Ptr := Ptr.heap 0

/-- A registered node info for `%IW5` as UInt16. -/
def sampleNode : OpcNodeInfo := ⟨(2, 4000000), some imagePtrIW5, some UAType.uint16⟩

/-- A binding for `%IW5` as UInt16 with a shadow cell. -/
def sampleBinding : OpcVarBinding :=
  ⟨some imagePtrIW5, some UAType.uint16, some shadowCell⟩

/-- Memory whose shadow cell holds 0xBEEF and whose other cells hold 0. -/
def memBEEF : Mem := fun p => if p = shadowCell then 48879 else 0

/-- A scalar UInt32 client value 1: a type mismatch against `uint16`. -/
def mismatchDV : UADataValue := ⟨true, ⟨true, true, some UAType.uint32, 1⟩⟩

/-- A scalar UInt16 client value 0xBEEF: type-correct for the binding. -/
def matchDV : UADataValue := ⟨true, ⟨true, true, some UAType.uint16, 48879⟩⟩

/-- Claim C1: the claim states that every marker line decomposing into at
least 5 comma-separated fields parses, that a 5-field record with a
non-X width such as `__LOCATED_VAR(UINT,__IW5,I,W,5)` gets a node when
its slot is present, and that `MalformedManifest` needs fewer than 5
fields.  The code instead requires AT LEAST SIX fields
(`if (n < 6) continue;`, opcua.cpp:940): the 5-field record is counted
as seen but silently dropped with no node created, even though its slot
is present, while the 6-field variant of the same record does create a
node — evaluating the embedded parser at the failing input. -/
theorem c1_five_field_record_dropped :
    createNodesFromLocatedVariables goodScanEnv (some [lineFive]) initialBridgeSt
        = (initialBridgeSt, 1, 0) ∧
    (createNodesFromLocatedVariables goodScanEnv (some [lineSix]) initialBridgeSt).1.nodeCount
        = 1 := by
  decide

/-- Claim C2: the claim states that the read callback produces a data
value that HAS a value (a scalar variant of the binding's type holding
the shadow cell's contents) with status Good, never touching the live
image or the scan lock.  Evaluating the embedded `readVariableValue` at
a UInt16 binding whose shadow holds 0xBEEF: the variant is indeed
populated with (UInt16, 0xBEEF) from the shadow, status is Good, the
trace is a single shadow read (no image access, no lock), but
`hasValue` is set to `false` (opcua.cpp:271) — the produced data value
has NO value, contradicting the claim. -/
theorem c2_read_callback_reports_no_value :
    readVariableValue (some sampleBinding) true memBEEF
        = (UAStatus.good,
            some ⟨false, true, UAStatus.good, false, some (UAType.uint16, 48879)⟩,
            [Ev.shadowRead shadowCell]) := by
  decide

/-- State after the first `start(4840)` with a one-record manifest. -/
def stAfterFirstStart : BridgeSt := opcuaStartServer restartStackEnv initialBridgeSt

/-- State after the subsequent `stop()`. -/
def stAfterStop : BridgeSt := stopOpcua stAfterFirstStart

/-- State after the second `start(4840)` with the identical manifest. -/
def stAfterSecondStart : BridgeSt := opcuaStartServer restartStackEnv stAfterStop

/-- The binding created by the first start. -/
def firstInstanceNode : OpcNodeInfo := ⟨(2, 4000000), some imagePtrIW5, some UAType.uint16⟩

/-- Claim C7: the claim states that all bindings created at a start are
destroyed at the matching stop, so none survive into the second start.
Evaluating the embedding on `start; stop; start` with an identical
one-record manifest: the first start creates one binding; `stopOpcua`
clears the running flag and deletes the server but leaves `g_node_list`
and `g_node_count` untouched, so the binding survives the stop; after
the second start the count is 2 and the first instance's binding is
still registered (and the periodic updater keeps iterating it).  The
second start does add an equal number of new bindings (one). -/
theorem c7_bindings_survive_stop :
    stAfterFirstStart.nodeList = [firstInstanceNode] ∧
    stAfterStop.running = false ∧
    stAfterStop.serverPresent = false ∧
    stAfterStop.nodeList = [firstInstanceNode] ∧
    stAfterSecondStart.nodeCount = 2 ∧
    firstInstanceNode ∈ stAfterSecondStart.nodeList := by
  decide

/-- Claim C3: a client write whose scalar value's declared type differs
from the binding's type is rejected with `BadTypeMismatch` and changes
nothing.  For the status-returning write handler `writeVariableValue`
the result is exactly `BADTYPEMISMATCH` with the memory untouched (the
lock is taken and released around the failed validation, with no store
in between); the installed `UA_ValueCallback` write handler
`onVariableValueWrite` likewise returns with the memory untouched and no
events at all on a type mismatch. -/
theorem c3_type_mismatch_write_rejected (b : OpcVarBinding) (info : OpcNodeInfo)
    (dv : UADataValue) (mem : Mem)
    (hv : dv.hasValue = true)
    (hs : dv.value.isScalar = true) (hd : dv.value.dataPresent = true)
    (ht : dv.value.ty ≠ none)
    (hb : dv.value.ty ≠ b.dataType) (hi : dv.value.ty ≠ info.dataType) :
    writeVariableValue (some b) (some dv) mem
        = (UAStatus.badTypeMismatch, mem, [Ev.scanLockAcquire, Ev.scanLockRelease]) ∧
    onVariableValueWrite (some info) (some dv) mem = (mem, []) := by
  constructor
  · unfold writeVariableValue
    simp [hv, hs, hd, ht, hb]
  · unfold onVariableValueWrite
    by_cases hnull : info.variablePtr = none ∨ info.dataType = none
    · simp [hv, hnull]
    · simp [hv, hs, hd, ht, hi, hnull]

/-- Witness for C3: a scalar UInt32 written to the UInt16 binding of
`%IW5` is rejected with `BadTypeMismatch` and both memories stay as they
were. -/
theorem c3_type_mismatch_write_rejected_witness :
    writeVariableValue (some sampleBinding) (some mismatchDV) memBEEF
        = (UAStatus.badTypeMismatch, memBEEF, [Ev.scanLockAcquire, Ev.scanLockRelease]) ∧
    onVariableValueWrite (some sampleNode) (some mismatchDV) memBEEF = (memBEEF, []) :=
  c3_type_mismatch_write_rejected sampleBinding sampleNode mismatchDV memBEEF
    (by decide) (by decide) (by decide) (by decide) (by decide) (by decide)

/-- Claim C4: a client write through `writeVariableValue` that returns
`Good` leaves both the image pointee and the shadow cell equal to the
written value, and its event trace is exactly one scan-lock acquisition
with the image store and the shadow store both strictly inside it and
nothing in between — there is no interleaving point between the two
stores. -/
theorem c4_good_write_updates_image_and_shadow (b : OpcVarBinding) (dv : UADataValue)
    (mem : Mem) (p q : Ptr)
    (hp : b.variablePtr = some p) (hq : b.shadowPtr = some q)
    (hg : (writeVariableValue (some b) (some dv) mem).1 = UAStatus.good) :
    writeVariableValue (some b) (some dv) mem
        = (UAStatus.good,
            updateMem (updateMem mem p dv.value.bits) q dv.value.bits,
            [Ev.scanLockAcquire, Ev.imageStore p dv.value.bits,
              Ev.shadowStore q dv.value.bits, Ev.scanLockRelease]) ∧
    (writeVariableValue (some b) (some dv) mem).2.1 p = dv.value.bits ∧
    (writeVariableValue (some b) (some dv) mem).2.1 q = dv.value.bits := by
  simp only [writeVariableValue] at hg ⊢
  rw [hp, hq] at hg ⊢
  by_cases h1 : dv.hasValue = false
  · simp [h1] at hg
  · rw [if_neg h1] at hg ⊢
    by_cases h2 : dv.value.isScalar = true ∧ dv.value.dataPresent = true ∧ dv.value.ty ≠ none
    · rw [if_neg (by simpa using h2)] at hg ⊢
      by_cases h3 : dv.value.ty ≠ b.dataType
      · simp [h3] at hg
      · rw [if_neg h3] at hg ⊢
        rcases hbd : b.dataType with _ | t
        · rw [hbd] at hg; simp at hg
        · rw [hbd] at hg
          by_cases h4 : t = UAType.otherType
          · simp [h4] at hg
          · refine ⟨by simp [h4], ?_, ?_⟩
            · by_cases hpq : p = q <;> simp [h4, updateMem, hpq]
            · simp [h4, updateMem]
    · rw [if_pos (by simpa using h2)] at hg
      simp at hg

/-- Witness for C4: a scalar UInt16 0xBEEF written to the binding of
`%IW5` returns `Good`, stores 0xBEEF into the image cell and into the
shadow cell, under a single lock acquisition. -/
theorem c4_good_write_updates_image_and_shadow_witness :
    writeVariableValue (some sampleBinding) (some matchDV) memBEEF
        = (UAStatus.good,
            updateMem (updateMem memBEEF imagePtrIW5 matchDV.value.bits) shadowCell
              matchDV.value.bits,
            [Ev.scanLockAcquire, Ev.imageStore imagePtrIW5 matchDV.value.bits,
              Ev.shadowStore shadowCell matchDV.value.bits, Ev.scanLockRelease]) ∧
    (writeVariableValue (some sampleBinding) (some matchDV) memBEEF).2.1 imagePtrIW5
        = matchDV.value.bits ∧
    (writeVariableValue (some sampleBinding) (some matchDV) memBEEF).2.1 shadowCell
        = matchDV.value.bits :=
  c4_good_write_updates_image_and_shadow sampleBinding matchDV memBEEF
    imagePtrIW5 shadowCell rfl rfl rfl

/-- Every event one node update can emit is an image read or a stack
call. -/
theorem mem_updateNodeEvents (info : OpcNodeInfo) (e : Ev)
    (h : e ∈ updateNodeEvents info) : (∃ p, e = Ev.imageRead p) ∨ e = Ev.stackCall := by
  unfold updateNodeEvents at h
  rcases hvp : info.variablePtr with _ | p <;> rcases hdt : info.dataType with _ | t <;>
    rw [hvp, hdt] at h <;> simp at h
  by_cases h4 : t = UAType.otherType
  · simp [h4] at h
    simp [h]
  · simp [h4] at h
    rcases h with h | h
    · exact Or.inl ⟨p, h⟩
    · exact Or.inr h

/-- Claim C5 counterexample: the claim states that every invocation of
the scan-tick publisher acquires the scan lock (`bufferLock`) while
copying image values to a shadow and never calls into the stack under a
lock.  Running the embedded `opcuaUpdateNodeValues` on a one-node list
with the server present and running: no scan-lock acquire occurs at all,
and a stack call (`UA_Server_writeValue`) happens strictly between the
bridge-lock acquire and release — the bridge lock IS held across a call
into the stack. -/
theorem c5_publisher_violates_lock_discipline :
    (Ev.scanLockAcquire ∉ opcuaUpdateNodeValues true true [sampleNode]) ∧
    (∃ mid, opcuaUpdateNodeValues true true [sampleNode]
        = Ev.bridgeLockAcquire :: mid ++ [Ev.bridgeLockRelease] ∧ Ev.stackCall ∈ mid) :=
  ⟨by decide, ⟨[Ev.imageRead imagePtrIW5, Ev.stackCall], by decide, by decide⟩⟩

/-- Claim C5 as amended: when the server is present and running, the
publisher acquires the bridge lock (`opcua_mutex`) once, reads each
listed node's image value and writes it into the protocol node through
the stack while still holding the bridge lock, then releases; it never
acquires or releases the scan lock and performs no shadow store. -/
theorem c5_publisher_actual_locking (nodes : List OpcNodeInfo) :
    (∀ e ∈ opcuaUpdateNodeValues true true nodes,
        e ≠ Ev.scanLockAcquire ∧ e ≠ Ev.scanLockRelease ∧
        (∀ p v, e ≠ Ev.shadowStore p v)) ∧
    (∃ mid, opcuaUpdateNodeValues true true nodes
        = Ev.bridgeLockAcquire :: mid ++ [Ev.bridgeLockRelease] ∧
      (∀ e ∈ mid, (∃ p, e = Ev.imageRead p) ∨ e = Ev.stackCall) ∧
      ∀ n ∈ nodes, n.variablePtr ≠ none → n.dataType ≠ none → Ev.stackCall ∈ mid) := by
  have hmid : ∀ e ∈ (nodes.map updateNodeEvents).flatten,
      (∃ p, e = Ev.imageRead p) ∨ e = Ev.stackCall := by
    intro e he
    rw [List.mem_flatten] at he
    obtain ⟨l, hl, hel⟩ := he
    obtain ⟨n, _, rfl⟩ := List.mem_map.mp hl
    exact mem_updateNodeEvents n e hel
  constructor
  · intro e he
    unfold opcuaUpdateNodeValues at he
    simp at he
    rcases he with rfl | he | rfl
    · refine ⟨by simp, by simp, by intro p v; simp⟩
    · obtain ⟨n, hn, hel⟩ := he
      rcases mem_updateNodeEvents n e hel with ⟨p, rfl⟩ | rfl
      · refine ⟨by simp, by simp, by intro a v; simp⟩
      · refine ⟨by simp, by simp, by intro a v; simp⟩
    · refine ⟨by simp, by simp, by intro p v; simp⟩
  · refine ⟨(nodes.map updateNodeEvents).flatten, by unfold opcuaUpdateNodeValues; simp, hmid, ?_⟩
    intro n hn hvp hdt
    rw [List.mem_flatten]
    refine ⟨updateNodeEvents n, List.mem_map.mpr ⟨n, hn, rfl⟩, ?_⟩
    unfold updateNodeEvents
    rcases hp : n.variablePtr with _ | p
    · exact absurd hp hvp
    · rcases hd : n.dataType with _ | t
      · exact absurd hd hdt
      · by_cases h4 : t = UAType.otherType <;> simp [h4]

/-- Witness for the amended C5: on the one-node list the publisher calls
the stack and never touches the scan lock. -/
theorem c5_publisher_actual_locking_witness :
    Ev.stackCall ∈ opcuaUpdateNodeValues true true [sampleNode] ∧
    Ev.scanLockAcquire ∉ opcuaUpdateNodeValues true true [sampleNode] := by
  obtain ⟨hall, mid, heq, _, hmem⟩ := c5_publisher_actual_locking [sampleNode]
  have hsc : Ev.stackCall ∈ mid := hmem sampleNode (by simp) (by decide) (by decide)
  constructor
  · rw [heq]
    simp [hsc]
  · intro h
    exact (hall _ h).1 rfl

/-- `addVariableNode` touches only the node list and the node count. -/
theorem addVariableNode_flags (env : AddNodeEnv) (st : BridgeSt) (idn : Nat)
    (vp : Option Ptr) (dt : Option UAType) :
    (addVariableNode env st idn vp dt).serverPresent = st.serverPresent ∧
    (addVariableNode env st idn vp dt).running = st.running ∧
    (addVariableNode env st idn vp dt).nsIndex = st.nsIndex ∧
    (addVariableNode env st idn vp dt).nextId = st.nextId := by
  unfold addVariableNode
  repeat' split
  all_goals exact ⟨rfl, rfl, rfl, rfl⟩

/-- One manifest line leaves the server flag, the running flag and the
namespace index unchanged. -/
theorem processManifestLine_flags (env : ScanEnv) (acc : BridgeSt × Nat × Nat)
    (line : List Char) :
    (processManifestLine env acc line).1.serverPresent = acc.1.serverPresent ∧
    (processManifestLine env acc line).1.running = acc.1.running ∧
    (processManifestLine env acc line).1.nsIndex = acc.1.nsIndex := by
  rcases acc with ⟨st, s, a⟩
  unfold processManifestLine
  dsimp only
  repeat' split
  all_goals try exact ⟨rfl, rfl, rfl⟩
  all_goals {
    obtain ⟨h1, h2, h3, -⟩ := addVariableNode_flags env.addEnv
      { st with nextId := nextIdStep st.nextId } st.nextId (some (Ptr.slot _)) (some _)
    exact ⟨h1, h2, h3⟩ }

/-- The whole node-creation scan leaves the server flag, the running
flag and the namespace index unchanged. -/
theorem createNodes_flags (env : ScanEnv) (manifest : Option (List (List Char)))
    (st : BridgeSt) :
    (createNodesFromLocatedVariables env manifest st).1.serverPresent = st.serverPresent ∧
    (createNodesFromLocatedVariables env manifest st).1.running = st.running ∧
    (createNodesFromLocatedVariables env manifest st).1.nsIndex = st.nsIndex := by
  rcases manifest with _ | lines
  · exact ⟨rfl, rfl, rfl⟩
  · unfold createNodesFromLocatedVariables
    suffices h : ∀ acc : BridgeSt × Nat × Nat,
        (lines.foldl (processManifestLine env) acc).1.serverPresent = acc.1.serverPresent ∧
        (lines.foldl (processManifestLine env) acc).1.running = acc.1.running ∧
        (lines.foldl (processManifestLine env) acc).1.nsIndex = acc.1.nsIndex by
      exact h (st, 0, 0)
    induction lines with
    | nil => intro acc; exact ⟨rfl, rfl, rfl⟩
    | cons l ls ih =>
      intro acc
      obtain ⟨i1, i2, i3⟩ := ih (processManifestLine env acc l)
      obtain ⟨s1, s2, s3⟩ := processManifestLine_flags env acc l
      simp only [List.foldl_cons]
      exact ⟨i1.trans s1, i2.trans s2, i3.trans s3⟩

/-- Claim C6 counterexample: the claim states that a namespace
registration returning index 0 is fatal — instance destroyed, no nodes
built, back to IDLE.  Running the embedded `opcuaStartServer` with an
environment whose `UA_Server_addNamespace` returns 0 (everything else
succeeding): the server instance is kept, one node IS built (under
namespace index 0), and the lifecycle proceeds to RUNNING. -/
theorem c6_namespace_zero_not_fatal :
    (opcuaStartServer nsZeroStackEnv initialBridgeSt).running = true ∧
    (opcuaStartServer nsZeroStackEnv initialBridgeSt).serverPresent = true ∧
    (opcuaStartServer nsZeroStackEnv initialBridgeSt).nsIndex = 0 ∧
    (opcuaStartServer nsZeroStackEnv initialBridgeSt).nodeCount = 1 := by
  decide

/-- Claim C6 as amended: when namespace registration returns index 0 and
every other startup step succeeds, the failure is only logged:
`start()` keeps the instance, stores namespace index 0, still builds the
nodes from the manifest, and proceeds to RUNNING. -/
theorem c6_namespace_zero_only_logged (env : StackEnv) (st : BridgeSt)
    (hrun : st.running = false) (hnew : env.newOk = true) (hcfg : env.configOk = true)
    (hmin : env.setMinimal = UAStatus.good) (hns : env.addNamespaceResult = 0)
    (hst : env.startup = UAStatus.good) :
    (opcuaStartServer env st).running = true ∧
    (opcuaStartServer env st).serverPresent = true ∧
    (opcuaStartServer env st).nsIndex = 0 ∧
    (opcuaStartServer env st).nodeList =
      (createNodesFromLocatedVariables env.scanEnv env.manifest
        { st with serverPresent := true, running := false, nsIndex := 0 }).1.nodeList := by
  unfold opcuaStartServer
  rw [hrun, hnew, hcfg, hmin, hns, hst]
  simp
  obtain ⟨f1, -, f3⟩ := createNodes_flags env.scanEnv env.manifest
    { st with serverPresent := true, running := false, nsIndex := 0 }
  exact ⟨f1, f3⟩

/-- Witness for the amended C6: index 0 with the concrete one-record
manifest starts up, runs, and builds its node. -/
theorem c6_namespace_zero_only_logged_witness :
    (opcuaStartServer nsZeroStackEnv initialBridgeSt).running = true ∧
    (opcuaStartServer nsZeroStackEnv initialBridgeSt).serverPresent = true ∧
    (opcuaStartServer nsZeroStackEnv initialBridgeSt).nsIndex = 0 ∧
    (opcuaStartServer nsZeroStackEnv initialBridgeSt).nodeList =
      (createNodesFromLocatedVariables nsZeroStackEnv.scanEnv nsZeroStackEnv.manifest
        { initialBridgeSt with
            serverPresent := true, running := false, nsIndex := 0 }).1.nodeList :=
  c6_namespace_zero_only_logged nsZeroStackEnv initialBridgeSt
    rfl rfl rfl rfl rfl rfl

/-- A resolver success guard with a lower bound of 0 yields nothing for
a negative index. -/
theorem guard_none {α : Type} {i1 B : Int} {c : Prop} [Decidable (0 ≤ i1 ∧ i1 < B ∧ c)]
    {x : α} (h : i1 < 0) :
    (if 0 ≤ i1 ∧ i1 < B ∧ c then some x else none) = none :=
  if_neg (fun hc => absurd hc.1 (by omega))

/-- Claim C8: location resolution rejects out-of-domain tokens without
creating a binding.  `%IX0.8` (bit 8 ∉ [0,8)), `%MW-1` (negative index)
and `%MB0` (area M with width B, unsupported) all resolve to nothing in
every process image; in general a width-X token whose bit lies outside
[0,8) resolves to nothing, any negative index resolves to nothing, and
area M with width X or B resolves to nothing.  A manifest containing an
`%MB0` record followed by a resolvable record is processed with the
unsupported entry silently skipped: both lines are seen, one node is
added, and startup continues. -/
theorem c8_resolver_rejects_out_of_domain :
    (∀ img : ProcessImage, resolvePointerFromLocation img "%IX0.8".data = none) ∧
    (∀ img : ProcessImage, resolvePointerFromLocation img "%MW-1".data = none) ∧
    (∀ img : ProcessImage, resolvePointerFromLocation img "%MB0".data = none) ∧
    (∀ (img : ProcessImage) (area : Char) (rest suf : List Char),
        strchrSuffix '.' rest = some suf →
        ¬ (0 ≤ atoiModel suf ∧ atoiModel suf < 8) →
        resolvePointerFromLocation img ('%' :: area :: 'X' :: rest) = none) ∧
    (∀ (img : ProcessImage) (a t : Char) (i1 i2 : Int),
        i1 < 0 → resolveCore img a t i1 i2 = none) ∧
    (∀ (img : ProcessImage) (i1 i2 : Int),
        resolveCore img 'M' 'X' i1 i2 = none ∧ resolveCore img 'M' 'B' i1 i2 = none) ∧
    ((createNodesFromLocatedVariables goodScanEnv (some [lineMB0, lineSix])
        initialBridgeSt).2 = (2, 1) ∧
      (createNodesFromLocatedVariables goodScanEnv (some [lineMB0, lineSix])
        initialBridgeSt).1.nodeCount = 1) := by
  refine ⟨fun _ => rfl, fun _ => rfl, fun _ => rfl, ?_, ?_, fun img i1 i2 => ⟨rfl, rfl⟩,
    by decide, by decide⟩
  · intro img area rest suf hdot hbit
    unfold resolvePointerFromLocation
    rw [show cstrGet ('%' :: area :: 'X' :: rest) 0 = '%' from rfl,
        show cstrGet ('%' :: area :: 'X' :: rest) 1 = area from rfl,
        show cstrGet ('%' :: area :: 'X' :: rest) 2 = 'X' from rfl,
        show List.drop 3 ('%' :: area :: 'X' :: rest) = rest from rfl]
    rw [if_neg (by simp), if_pos rfl]
    simp only [hdot]
    rw [if_pos (by omega)]
  · intro img a t i1 i2 hneg
    unfold resolveCore
    simp only [guard_none hneg, ite_self]

/-- Witness for C8: the general width-X bound and the negative-index
bound applied at `%IX0.8` and at `M`/`W` index −1 in the all-present
image. -/
theorem c8_resolver_rejects_out_of_domain_witness :
    resolvePointerFromLocation imgAll ('%' :: 'I' :: 'X' :: "0.8".data) = none ∧
    resolveCore imgAll 'M' 'W' (-1) (-1) = none :=
  ⟨c8_resolver_rejects_out_of_domain.2.2.2.1 imgAll 'I' "0.8".data "8".data
      (by decide) (by decide),
    c8_resolver_rejects_out_of_domain.2.2.2.2.1 imgAll 'M' 'W' (-1) (-1) (by decide)⟩

/-- Claim C9: insertion into the bridge's node list is guarded — if every
binding already in the list has a non-null image pointer and a non-null
data type, the same holds after any `addVariableNode` call (the function
returns before inserting when either is null) — and the installed write
handler re-checks: with a null node context, or a context whose pointer
or type is null, `onVariableValueWrite` returns with the memory
untouched and no events, so no client write ever dereferences a null
image pointer. -/
theorem c9_null_guards (env : AddNodeEnv) (st : BridgeSt) (idn : Nat)
    (vp : Option Ptr) (dt : Option UAType)
    (hinv : ∀ n ∈ st.nodeList, n.variablePtr ≠ none ∧ n.dataType ≠ none) :
    (∀ n ∈ (addVariableNode env st idn vp dt).nodeList,
        n.variablePtr ≠ none ∧ n.dataType ≠ none) ∧
    (∀ (data : Option UADataValue) (mem : Mem),
        onVariableValueWrite none data mem = (mem, [])) ∧
    (∀ (info : OpcNodeInfo) (data : Option UADataValue) (mem : Mem),
        info.variablePtr = none ∨ info.dataType = none →
        onVariableValueWrite (some info) data mem = (mem, [])) := by
  refine ⟨?_, ?_, ?_⟩
  · unfold addVariableNode
    by_cases h1 : vp = none
    · simpa [h1] using hinv
    · rw [if_neg h1]
      by_cases h2 : dt = none
      · simpa [h2] using hinv
      · rw [if_neg h2]
        split
        · split_ifs with h3
          · intro n hn
            rcases List.mem_cons.mp hn with rfl | hn
            · exact ⟨h1, h2⟩
            · exact hinv n hn
          · exact hinv
        · exact hinv
  · intro data mem
    rcases data with _ | dv <;> rfl
  · intro info data mem h
    rcases data with _ | dv
    · rfl
    · simp only [onVariableValueWrite]
      by_cases hv : dv.hasValue = false
      · rw [if_pos hv]
      · rw [if_neg hv, if_pos h]

/-- Witness for C9: starting from the empty node list, adding the `%IW5`
node keeps the invariant, and a write against a context with a null
pointer and a null type is a no-op. -/
theorem c9_null_guards_witness :
    (∀ n ∈ (addVariableNode goodAddEnv initialBridgeSt 4000000
        (some imagePtrIW5) (some UAType.uint16)).nodeList,
      n.variablePtr ≠ none ∧ n.dataType ≠ none) ∧
    (∀ (data : Option UADataValue) (mem : Mem),
        onVariableValueWrite none data mem = (mem, [])) ∧
    (∀ (info : OpcNodeInfo) (data : Option UADataValue) (mem : Mem),
        info.variablePtr = none ∨ info.dataType = none →
        onVariableValueWrite (some info) data mem = (mem, [])) :=
  c9_null_guards goodAddEnv initialBridgeSt 4000000
    (some imagePtrIW5) (some UAType.uint16) (by simp [initialBridgeSt])

/-- Closed form of repeated `nextId++`: after `k` increments from a
32-bit value `x` the counter holds `(x + k) % 2^32`. -/
theorem nextIdStep_iterate (k x : Nat) (hx : x < 2 ^ 32) :
    nextIdStep^[k] x = (x + k) % 2 ^ 32 := by
  have h32 : (2 : Nat) ^ 32 = 4294967296 := by norm_num
  induction k with
  | zero =>
    simp only [Function.iterate_zero_apply, Nat.add_zero]
    rw [h32] at hx ⊢
    omega
  | succ n ih =>
    rw [Function.iterate_succ_apply', ih]
    unfold nextIdStep
    rw [h32] at hx ⊢
    omega

/-- A bridge state whose node-id counter has reached the largest 32-bit
value (reachable after 2^32 − 4000001 node creations). -/
def wrapSt : BridgeSt := { initialBridgeSt with nextId := 4294967295 }

/-- The state after one more node creation from `wrapSt`. -/
def wrapSt2 : BridgeSt := (processManifestLine goodScanEnv (wrapSt, 0, 0) lineSix).1

/-- Claim C10 counterexample: the claim states that node ids are strictly
increasing and never reused across the entire process lifetime for any
number of creations.  The counter is a `UA_UInt32`: after
2^32 − 4000000 increments from its start value 4000000 it holds 0, and
after 2^32 increments it is back at 4000000 (so the 2^32-th created node
would reuse the very first id).  Concretely, two consecutive creations
from the reachable counter value 4294967295 assign ids 4294967295 and
then 0 — a later node with a smaller id, refuting strict increase. -/
theorem c10_node_id_counter_wraps :
    nextIdStep^[2 ^ 32 - 4000000] 4000000 = 0 ∧
    nextIdStep^[2 ^ 32] 4000000 = 4000000 ∧
    wrapSt2.nodeList.map (fun n => n.nodeId.2) = [4294967295] ∧
    (processManifestLine goodScanEnv (wrapSt2, 0, 0) lineSix).1.nodeList.map
        (fun n => n.nodeId.2) = [0, 4294967295] := by
  refine ⟨?_, ?_, by decide, by decide⟩
  · rw [nextIdStep_iterate _ _ (by norm_num)]
    decide
  · rw [nextIdStep_iterate _ _ (by norm_num)]
    decide

/-- Claim C10 as amended: the node-id counter starts at 4000000, is a
function-local static never touched by `stopOpcua`, each node creation
assigns the current counter value as the node's numeric id and advances
the counter by one modulo 2^32, and the assigned ids are strictly
increasing (hence never reused) as long as the total number of creations
over the process lifetime stays below 2^32 − 4000000. -/
theorem c10_counter_monotone_until_wrap (j k : Nat) (hjk : j < k)
    (hk : k ≤ 2 ^ 32 - 4000001) :
    initialBridgeSt.nextId = 4000000 ∧
    (∀ st : BridgeSt, (stopOpcua st).nextId = st.nextId) ∧
    (∀ (st : BridgeSt) (s a : Nat),
        processManifestLine goodScanEnv (st, s, a) lineSix
          = ({ st with
                nodeList := ⟨(st.nsIndex, st.nextId), some imagePtrIW5, some UAType.uint16⟩
                  :: st.nodeList
                nodeCount := st.nodeCount + 1
                nextId := nextIdStep st.nextId }, s + 1, a + 1)) ∧
    nextIdStep^[j] 4000000 < nextIdStep^[k] 4000000 := by
  have h32 : (2 : Nat) ^ 32 = 4294967296 := by norm_num
  refine ⟨rfl, ?_, ?_, ?_⟩
  · intro st
    unfold stopOpcua
    split_ifs <;> rfl
  · intro st s a
    rfl
  · rw [nextIdStep_iterate _ _ (by norm_num), nextIdStep_iterate _ _ (by norm_num)]
    rw [h32] at hk ⊢
    rw [Nat.mod_eq_of_lt (by omega), Nat.mod_eq_of_lt (by omega)]
    omega

/-- Witness for the amended C10: the first two assigned ids, 4000000 and
4000001, are strictly increasing. -/
theorem c10_counter_monotone_until_wrap_witness :
    initialBridgeSt.nextId = 4000000 ∧
    (∀ st : BridgeSt, (stopOpcua st).nextId = st.nextId) ∧
    (∀ (st : BridgeSt) (s a : Nat),
        processManifestLine goodScanEnv (st, s, a) lineSix
          = ({ st with
                nodeList := ⟨(st.nsIndex, st.nextId), some imagePtrIW5, some UAType.uint16⟩
                  :: st.nodeList
                nodeCount := st.nodeCount + 1
                nextId := nextIdStep st.nextId }, s + 1, a + 1)) ∧
    nextIdStep^[0] 4000000 < nextIdStep^[1] 4000000 :=
  c10_counter_monotone_until_wrap 0 1 (by decide) (by norm_num)

end OpcuaBridge
